import Mathlib

/-!
Verification of the personal-assistant chat backend: the WebSocket connection
registry, the message pipeline of `backend_server.py`, the knowledge-store
search contract, the GitHub backup store of `github_manager.py`, and the
Amazon order extractor of `gmail_extractor.py`.

Machine integers do not occur; all text is modelled as `String` / `List Char`.
External effects (socket sends, the model process, the JSON file store, the
clock) are modelled as explicit parameters, so every operation is a total
function and "never raises" is totality of the embedding.
-/

/- ────────────────────────────────────────
   Connection registry (`ConnectionManager` in backend_server.py).
   A live WebSocket is modelled as a numeric channel id; the Python `set` of
   connections is a duplicate-free list (`Nodup` where a theorem needs it).
   ──────────────────────────────────────── -/

structure ConnectionManager where
  active_connections : List Nat
deriving DecidableEq

/-- `disconnect` (backend_server.py lines 54-56): `self.active_connections.discard(websocket)`. -/
def ConnectionManager.disconnect (m : ConnectionManager) (c : Nat) : ConnectionManager :=
  ⟨m.active_connections.erase c⟩

/-- `connect` (lines 49-52): accept the handshake and add the channel to the live set. -/
def ConnectionManager.connect (m : ConnectionManager) (c : Nat) : ConnectionManager :=
  if c ∈ m.active_connections then m else ⟨c :: m.active_connections⟩

/-- One iteration pass of `broadcast` (lines 62-68): for each channel of the
snapshot, attempt a send; `fails c = true` models `send_json` raising for `c`.
Returns (channels that received the message, channels marked disconnected),
both in iteration order. -/
def sendPass (conns : List Nat) (fails : Nat → Bool) : List Nat × List Nat :=
  match conns with
  | [] => ([], [])
  | c :: rest =>
    let p := sendPass rest fails
    if fails c then (p.1, c :: p.2) else (c :: p.1, p.2)

/-- `broadcast` (lines 58-72): a single pass over the live set, then the
deferred `self.disconnect(connection)` loop over the failed channels.
Returns the updated registry and the list of channels that received the
message. -/
def ConnectionManager.broadcast (m : ConnectionManager) (fails : Nat → Bool) :
    ConnectionManager × List Nat :=
  let p := sendPass m.active_connections fails
  (p.2.foldl ConnectionManager.disconnect m, p.1)

/-- The channels a `broadcast` call attempts to send to: every member of the
live set at call time (the `for connection in self.active_connections` loop). -/
def ConnectionManager.attempted (m : ConnectionManager) : List Nat :=
  m.active_connections

/- ────────────────────────────────────────
   Knowledge store search.
   ──────────────────────────────────────── -/

/-- Whitespace-delimited tokens of a character list (empty tokens dropped),
as Python `str.split()` produces them. -/
def wsTokensAux (cur : List Char) : List Char → List (List Char)
  | [] => if cur.isEmpty then [] else [cur.reverse]
  | c :: rest =>
    if c.isWhitespace then
      if cur.isEmpty then wsTokensAux [] rest
      else cur.reverse :: wsTokensAux [] rest
    else wsTokensAux (c :: cur) rest

def queryTokens (q : String) : List String :=
  (wsTokensAux [] q.toList).map fun t => (⟨t⟩ : String)

/-- `occursAux needle hay` is true when `needle` occurs contiguously in `hay`. -/
def occursAux (needle : List Char) : List Char → Bool
  | [] => needle.isEmpty
  | c :: rest => needle.isPrefixOf (c :: rest) || occursAux needle rest

/-- Token `t` occurs as a substring of the document text `doc`. -/
def occursIn (t doc : String) : Bool :=
  occursAux t.toList doc.toList

/-- Number of query tokens occurring as substrings of the document text. -/
def tokenScore (tokens : List String) (doc : String) : Nat :=
  tokens.countP fun t => occursIn t doc

/-- Descending-score order on (score, document) pairs. -/
def rankRel (a b : Nat × String) : Prop := b.1 ≤ a.1

instance : DecidableRel rankRel := fun a b => inferInstanceAs (Decidable (b.1 ≤ a.1))

instance : IsTotal (Nat × String) rankRel := ⟨fun a b => Nat.le_total b.1 a.1⟩

instance : IsTrans (Nat × String) rankRel := ⟨fun _ _ _ hab hbc => Nat.le_trans hbc hab⟩

/-- Modelled from the spec: the ranking performed by the external chromadb
`collection.query` call — the only part of the knowledge store whose
implementation is not in this repository's sources. Per the spec's contract
(section 4.1): split the query into whitespace-delimited tokens, score every
stored document by the number of tokens occurring as substrings of its text,
keep the documents with positive score, sort by descending score with a stable
sort, and return the top `limit` documents. -/
def scoredDocs (tokens : List String) (docs : List String) : List (Nat × String) :=
  (docs.map fun d => (tokenScore tokens d, d)).filter fun p => decide (0 < p.1)

def searchRanked (docs : List String) (q : String) (limit : Nat) : List String :=
  ((List.insertionSort rankRel (scoredDocs (queryTokens q) docs)).take limit).map Prod.snd

/-- The search result as delivered to the pipeline: the top documents' text
joined by newlines. -/
def searchText (docs : List String) (q : String) (limit : Nat) : String :=
  String.intercalate "\n" (searchRanked docs q limit)

/-- The context computation of `process_user_message` (backend_server.py lines
152-159): `"\n".join(results['documents'][0])`, and `""` when the query raises
(`store = none` models an unreadable store). -/
def backendContext (store : Option (List String)) (q : String) : String :=
  match store with
  | none => ""
  | some docs => searchText docs q 3

/-- `search_knowledge_base` (main.py lines 53-68). `results['documents']` is
the one-element list `[ranked]` returned by the query, so the
`（記録されたデータなし）` branch is kept but unreachable; an exception
(unreadable store, `store = none`) returns `""`. -/
def search_knowledge_base (store : Option (List String)) (query : String) : String :=
  match store with
  | none => ""
  | some docs =>
    match [searchRanked docs query 3] with
    | [] => "（記録されたデータなし）"
    | d :: _ => String.intercalate "\n" d

/- ────────────────────────────────────────
   Language-model invocation boundary.
   ──────────────────────────────────────── -/

/-- Outcome of the external `llm(prompt)` call: normal text, or a raised
exception carrying its text; `isTimeout` marks the exception raised when the
call exceeds its time bound. -/
inductive LlmOutcome where
  | ok (text : String)
  | exn (isTimeout : Bool) (msg : String)
deriving DecidableEq

def apologyString : String := "申し訳ありません。エラーが発生しました。"

/-- The `try/except` around `response_text = llm(prompt)` in
`process_user_message` (backend_server.py lines 170-186): any exception —
timeout included — degrades to the one fixed apology string. -/
def backendGenerate : LlmOutcome → String
  | .ok t => t
  | .exn _ _ => apologyString

/-- The `try/except` around `generate_response` in `handle_message`
(main.py lines 113-118): any exception degrades to an error string embedding
the exception text. -/
def handle_message_response : LlmOutcome → String
  | .ok t => t
  | .exn _ m => "申し訳ありません。エラーが発生しました: " ++ m

/- ────────────────────────────────────────
   Message pipeline (`process_user_message`, backend_server.py lines 130-206).
   ──────────────────────────────────────── -/

/-- Environment of one pipeline run: the raw input mapping, the stored
documents (`none` models the query raising), the model call, and whether
`collection.add` succeeds. -/
structure PipelineEnv where
  message : List (String × String)
  store : Option (List String)
  llm : String → LlmOutcome
  addOk : Bool

/-- `message.get('content', '')` (line 133). -/
def userInput (env : PipelineEnv) : String :=
  (env.message.lookup "content").getD ""

def pipelineContext (env : PipelineEnv) : String :=
  backendContext env.store (userInput env)

/-- The f-string prompt template of lines 171-181. -/
def buildPrompt (context user_input : String) : String :=
  "\n        あなたはユーザーの個人用 AI パートナーです。\n        ユーザーの過去データを踏まえて、実用的で具体的なアドバイスをしてください。\n        \n        ユーザーのデータ：\n        "
    ++ context
    ++ "\n        \n        ユーザーの質問：" ++ user_input ++ "\n        \n        回答：\n        "

def pipelinePrompt (env : PipelineEnv) : String :=
  buildPrompt (pipelineContext env) (userInput env)

/-- The conversation-turn document appended after a run (lines 192-196). -/
def qaDoc (user_input response_text : String) : String :=
  "質問: " ++ user_input ++ "\n回答: " ++ response_text

/-- Observable actions of one run, in program order. -/
inductive TraceItem where
  | thinking (step : String)
  | persist (doc : String)
  | respond (content : String)
deriving DecidableEq

def stepOf : TraceItem → Option String
  | .thinking s => some s
  | _ => none

def isRespond : TraceItem → Bool
  | .respond _ => true
  | _ => false

/-- The structured answer object of lines 201-206 (the timestamp field is an
external clock value and is not modelled). -/
structure Response where
  type : String
  role : String
  content : String
deriving DecidableEq

/-- `process_user_message` (backend_server.py lines 130-206): emit the three
progress events, query the store (empty context on failure), invoke the model
through its fallback boundary, append the turn (skipped when `collection.add`
raises), and return the structured response. -/
def process_user_message (env : PipelineEnv) : List TraceItem × Response :=
  let response_text := backendGenerate (env.llm (pipelinePrompt env))
  let persistItems :=
    if env.addOk then [TraceItem.persist (qaDoc (userInput env) response_text)] else []
  (([TraceItem.thinking "analyzing", TraceItem.thinking "searching",
      TraceItem.thinking "generating"] ++ persistItems)
     ++ [TraceItem.respond response_text],
   ⟨"response", "ai", response_text⟩)

/- ────────────────────────────────────────
   GitHub backup store (`GitHubManager`, github_manager.py).
   The JSON payload is modelled at value level (the external `json` library
   round-trips the exported lists exactly per the spec's persistence-format
   contract of section 6); the filesystem is an association of file paths to
   stored payloads, newest first.
   ──────────────────────────────────────── -/

/-- The backup payload written by `save_backup` (the dict built in
`export_chromadb_to_json`, github_manager.py lines 46-52). -/
structure BackupData where
  timestamp : String
  total_documents : Nat
  documents : List String
  metadatas : List (List (String × String))
  ids : List String
deriving DecidableEq

structure GitHubManager where
  repo_path : String
  data_dir : String

/-- `os.path.join(self.data_dir, filename)` as used by both `save_backup`
(line 73) and `load_backup` (line 199). -/
def joinPath (dir file : String) : String := dir ++ "/" ++ file

/-- `save_backup` (github_manager.py lines 61-83): write the payload to
`data_dir/filename` and return `True`; on an I/O error (`writable = false`)
log only and return `False` leaving the filesystem unchanged. -/
def GitHubManager.save_backup (mgr : GitHubManager) (fs : List (String × BackupData))
    (writable : Bool) (data : BackupData) (filename : String) :
    Bool × List (String × BackupData) :=
  if writable then (true, (joinPath mgr.data_dir filename, data) :: fs)
  else (false, fs)

/-- `load_backup` (github_manager.py lines 188-213): read `data_dir/filename`,
returning `none` when the file is missing. -/
def GitHubManager.load_backup (mgr : GitHubManager) (fs : List (String × BackupData))
    (filename : String) : Option BackupData :=
  fs.lookup (joinPath mgr.data_dir filename)

/- ────────────────────────────────────────
   Amazon order extractor (`extract_amazon_order`, gmail_extractor.py
   lines 46-69). The three `re` searches are embedded as leftmost-match
   scanners over the character list.
   ──────────────────────────────────────── -/

/-- Rest of `l` after the literal `pre`, when `pre` is a prefix of `l`. -/
def afterLit : List Char → List Char → Option (List Char)
  | [], l => some l
  | _ :: _, [] => none
  | p :: ps, c :: cs => if p = c then afterLit ps cs else none

/-- Closing half of the tag pattern: consume up to and including the first
`>`, failing on `<` or the end of input. -/
def findClose : List Char → Option (List Char)
  | [] => none
  | c :: rest =>
    if c = '>' then some rest
    else if c = '<' then none
    else findClose rest

/-- Match of `<[^<]+?>` starting right after a `<`: at least one non-`<`
character, then lazily up to the first `>`. -/
def tagMatch : List Char → Option (List Char)
  | [] => none
  | c :: cs => if c = '<' then none else findClose cs

/-- `re.sub('<[^<]+?>', '', text)` (gmail_extractor.py line 50), with fuel for
structural recursion; each step consumes at least one character, so the input
length is always enough fuel. -/
def stripTagsFuel : Nat → List Char → List Char
  | 0, l => l
  | _ + 1, [] => []
  | fuel + 1, c :: rest =>
    if c = '<' then
      match tagMatch rest with
      | some r => stripTagsFuel fuel r
      | none => c :: stripTagsFuel fuel rest
    else c :: stripTagsFuel fuel rest

def stripTags (s : String) : String :=
  ⟨stripTagsFuel s.toList.length s.toList⟩

/-- The lookahead `(?=\n|価格)` holds at `l`. -/
def isTermAt (l : List Char) : Bool :=
  "\n".toList.isPrefixOf l || "価格".toList.isPrefixOf l

/-- The lazy group `(.+?)` before the lookahead: the shortest nonempty prefix
whose remainder starts with a newline or `価格`. -/
def lazyCapture : List Char → Option (List Char)
  | [] => none
  | c :: rest => if isTermAt rest then some [c] else (lazyCapture rest).map (c :: ·)

/-- Anchored head shared by the three patterns: the literal `marker` followed
by one character of the `[：:]` class; rest after the colon. -/
def afterColonLit (marker : List Char) (l : List Char) : Option (List Char) :=
  match afterLit marker l with
  | some (k :: rest) => if k = '：' || k = ':' then some rest else none
  | _ => none

/-- The position scan of `re.search`: try the anchored match at every start
position from the left and return the first success, so an anchor whose tail
fails is retried at every later position (including later marker
occurrences). -/
def scanFor (matchAt : List Char → Option (List Char)) : List Char → Option (List Char)
  | [] => matchAt []
  | c :: rest =>
    match matchAt (c :: rest) with
    | some g => some g
    | none => scanFor matchAt rest

/-- Python `.strip()` on the captured group. -/
def trimChars (l : List Char) : List Char :=
  ((l.dropWhile Char.isWhitespace).reverse.dropWhile Char.isWhitespace).reverse

/-- Backtracking of the greedy `\s*` in the product pattern: when no
terminator follows the whitespace run of length `e`, the engine shortens the
run, and the first alternative to succeed — largest remaining run first,
shortest lazy group first — captures the single whitespace character sitting
just before the rightmost terminator inside the run. -/
def wsBackScan (s : List Char) : Nat → Option (List Char)
  | 0 => none
  | e + 1 =>
    if isTermAt (s.drop (e + 1)) then some ((s.drop e).take 1)
    else wsBackScan s e

/-- The product pattern `商品名[：:]\s*(.+?)(?=\n|価格)` (DOTALL) anchored at
the head of `l`: greedy `\s*` swallows the whitespace run, the lazy group
runs to the first terminator after it, and on failure `\s*` backtracks into
the run. -/
def productAt (l : List Char) : Option (List Char) :=
  (afterColonLit "商品名".toList l).bind fun s =>
    match lazyCapture (s.drop (s.takeWhile Char.isWhitespace).length) with
    | some g => some g
    | none => wsBackScan s (s.takeWhile Char.isWhitespace).length

/-- `re.search(r'商品名[：:]\s*(.+?)(?=\n|価格)', text, re.DOTALL)`, group 1
(gmail_extractor.py line 53). -/
def findProduct (text : String) : Option String :=
  (scanFor productAt text.toList).map fun g => (⟨g⟩ : String)

def isPriceChar (c : Char) : Bool :=
  c = '¥' || c.isDigit || c = ','

/-- The price pattern `合計金額[：:]\s*([¥0-9,]+)` anchored at the head of
`l`. The greedy `\s*` needs no backtracking here: a shorter run would place a
whitespace character — never a member of `[¥0-9,]` — at the head of the
group. -/
def priceAt (l : List Char) : Option (List Char) :=
  (afterColonLit "合計金額".toList l).bind fun s =>
    let run := (s.dropWhile Char.isWhitespace).takeWhile isPriceChar
    if run.isEmpty then none else some run

/-- `re.search(r'合計金額[：:]\s*([¥0-9,]+)', text)`, group 1 (line 57). -/
def findPrice (text : String) : Option String :=
  (scanFor priceAt text.toList).map fun g => (⟨g⟩ : String)

/-- `\d{4}` followed by nothing else consumed. -/
def exact4digits : List Char → Option (List Char × List Char)
  | a :: b :: c :: d :: rest =>
    if a.isDigit && b.isDigit && c.isDigit && d.isDigit then some ([a, b, c, d], rest)
    else none
  | _ => none

/-- `\d{1,2}` immediately followed by the literal `term` (greedy with the
one-step backtrack the regex engine performs). -/
def digits12 (term : Char) : List Char → Option (List Char × List Char)
  | a :: b :: rest =>
    if a.isDigit && b.isDigit then
      match rest with
      | t :: rest' => if t = term then some ([a, b, t], rest') else none
      | [] => none
    else if a.isDigit && b = term then some ([a, b], rest)
    else none
  | _ => none

/-- The date group `\d{4}年\d{1,2}月\d{1,2}日`. -/
def parseDate (l : List Char) : Option (List Char) :=
  match exact4digits l with
  | none => none
  | some (y, rest) =>
    match rest with
    | c :: rest' =>
      if c = '年' then
        match digits12 '月' rest' with
        | none => none
        | some (m, rest'') =>
          match digits12 '日' rest'' with
          | none => none
          | some (d, _) => some (y ++ '年' :: (m ++ d))
      else none
    | [] => none

/-- The date pattern anchored at the head of `l`. As with the price, the
greedy `\s*` needs no backtracking: a whitespace character is never a
digit. -/
def dateAt (l : List Char) : Option (List Char) :=
  (afterColonLit "注文日時".toList l).bind fun s =>
    parseDate (s.dropWhile Char.isWhitespace)

/-- `re.search(r'注文日時[：:]\s*(\d{4}年\d{1,2}月\d{1,2}日)', text)`, group 1
(line 61). -/
def findDate (text : String) : Option String :=
  (scanFor dateAt text.toList).map fun g => (⟨g⟩ : String)

/-- `extract_amazon_order` (gmail_extractor.py lines 46-69); `today` is the
external clock value `datetime.now().strftime('%Y年%m月%d日')`. -/
def extract_amazon_order (email_body : String) (today : String) : List (String × String) :=
  let text := stripTags email_body
  let product :=
    match findProduct text with
    | some g => (⟨trimChars g.toList⟩ : String)
    | none => "不明"
  let price := (findPrice text).getD "不明"
  let order_date := (findDate text).getD today
  [("product", product), ("price", price), ("date", order_date), ("source", "amazon_email")]

/- ────────────────────────────────────────
   Helper lemmas.
   ──────────────────────────────────────── -/

theorem sendPass_eq (conns : List Nat) (fails : Nat → Bool) :
    sendPass conns fails = (conns.filter (fun c => !(fails c)), conns.filter fails) := by
  induction conns with
  | nil => rfl
  | cons c rest ih =>
    simp only [sendPass, ih, List.filter]
    cases h : fails c <;> simp [h]

theorem foldl_disconnect_active (ds : List Nat) (m : ConnectionManager) :
    (ds.foldl ConnectionManager.disconnect m).active_connections
      = m.active_connections.diff ds := by
  induction ds generalizing m with
  | nil => simp
  | cons d ds ih => simp [List.foldl, ih, ConnectionManager.disconnect, List.diff_cons]

theorem scoredDocs_mem {tokens : List String} {docs : List String} {p : Nat × String}
    (hp : p ∈ scoredDocs tokens docs) :
    p.2 ∈ docs ∧ p.1 = tokenScore tokens p.2 ∧ 0 < p.1 := by
  rcases List.mem_filter.mp hp with ⟨hpm, hpp⟩
  rcases List.mem_map.mp hpm with ⟨d, hd, rfl⟩
  exact ⟨hd, rfl, by simpa using hpp⟩

theorem searchRanked_take_mem {docs : List String} {q : String} {limit : Nat}
    {p : Nat × String}
    (hp : p ∈ (List.insertionSort rankRel (scoredDocs (queryTokens q) docs)).take limit) :
    p ∈ scoredDocs (queryTokens q) docs :=
  (List.perm_insertionSort rankRel _).mem_iff.mp
    ((List.take_sublist _ _).subset hp)

/- ────────────────────────────────────────
   Claim theorems.
   ──────────────────────────────────────── -/

/-- C6: removing a channel that is already absent from the live set is a
no-op, and a second consecutive `disconnect` of the same channel raises no
exception (the embedding is total) and leaves the live set — hence its size —
unchanged. The live set is duplicate-free, being a Python `set`. -/
theorem disconnect_idempotent (m : ConnectionManager) (k : Nat) :
    (k ∉ m.active_connections → m.disconnect k = m)
    ∧ (m.active_connections.Nodup →
        (m.disconnect k).disconnect k = m.disconnect k
        ∧ ((m.disconnect k).disconnect k).active_connections.length
            = (m.disconnect k).active_connections.length) := by
  constructor
  · intro h
    cases m with
    | mk l => simp [ConnectionManager.disconnect, List.erase_of_not_mem h]
  · intro hnd
    have h : k ∉ (m.disconnect k).active_connections := by
      intro hk
      exact (hnd.mem_erase_iff.mp hk).1 rfl
    have heq : (m.disconnect k).disconnect k = m.disconnect k := by
      cases hm : m.disconnect k with
      | mk l =>
        have hl : k ∉ l := by rw [hm] at h; exact h
        simp [ConnectionManager.disconnect, List.erase_of_not_mem hl]
    exact ⟨heq, by rw [heq]⟩

/-- C6 witness: removing an absent channel and a doubled removal on a
concrete registry. -/
theorem disconnect_idempotent_witness :
    ConnectionManager.disconnect ⟨[5]⟩ 7 = ⟨[5]⟩
    ∧ ConnectionManager.disconnect (ConnectionManager.disconnect ⟨[5, 6]⟩ 5) 5
        = ConnectionManager.disconnect ⟨[5, 6]⟩ 5 :=
  ⟨(disconnect_idempotent ⟨[5]⟩ 7).1 (by decide),
   ((disconnect_idempotent ⟨[5, 6]⟩ 5).2 (by decide)).1⟩

/-- C4: when exactly channel `k` fails during a broadcast, every other live
channel still receives the message, `k` is removed from the live set after the
single iteration pass, and a later broadcast neither attempts a send to `k`
nor delivers to it. -/
theorem broadcast_drops_failed (m : ConnectionManager) (k : Nat)
    (hnd : m.active_connections.Nodup) :
    (∀ c ∈ m.active_connections, c ≠ k → c ∈ (m.broadcast (fun c => c == k)).2)
    ∧ (∀ c ∈ (m.broadcast (fun c => c == k)).2, c ∈ m.active_connections ∧ c ≠ k)
    ∧ k ∉ ((m.broadcast (fun c => c == k)).1).attempted
    ∧ ∀ fails₂, k ∉ (((m.broadcast (fun c => c == k)).1).broadcast fails₂).2 := by
  have hdeliv : (m.broadcast (fun c => c == k)).2
      = m.active_connections.filter (fun c => !(c == k)) := by
    simp [ConnectionManager.broadcast, sendPass_eq]
  have hactive : ((m.broadcast (fun c => c == k)).1).active_connections
      = m.active_connections.diff (m.active_connections.filter (fun c => c == k)) := by
    simp [ConnectionManager.broadcast, sendPass_eq, foldl_disconnect_active]
  have hknot : k ∉ ((m.broadcast (fun c => c == k)).1).active_connections := by
    rw [hactive]
    intro hk
    rcases hnd.mem_diff_iff.mp hk with ⟨hkl, hknf⟩
    exact hknf (List.mem_filter.mpr ⟨hkl, by simp⟩)
  refine ⟨?_, ?_, hknot, ?_⟩
  · intro c hc hck
    rw [hdeliv]
    exact List.mem_filter.mpr ⟨hc, by simpa using hck⟩
  · intro c hc
    rw [hdeliv] at hc
    rcases List.mem_filter.mp hc with ⟨hcl, hcb⟩
    exact ⟨hcl, by simpa using hcb⟩
  · intro fails₂ hk
    have : k ∈ ((m.broadcast (fun c => c == k)).1).active_connections := by
      have h2 : (((m.broadcast (fun c => c == k)).1).broadcast fails₂).2
          = ((m.broadcast (fun c => c == k)).1).active_connections.filter
              (fun c => !(fails₂ c)) := by
        simp [ConnectionManager.broadcast, sendPass_eq]
      rw [h2] at hk
      exact (List.mem_filter.mp hk).1
    exact hknot this

/-- C4 witness: a three-channel registry where channel 2 fails. -/
theorem broadcast_drops_failed_witness :
    (1 ∈ (ConnectionManager.broadcast ⟨[1, 2, 3]⟩ (fun c => c == 2)).2)
    ∧ 2 ∉ ((ConnectionManager.broadcast ⟨[1, 2, 3]⟩ (fun c => c == 2)).1).attempted :=
  ⟨((broadcast_drops_failed ⟨[1, 2, 3]⟩ 2 (by decide)).1 1 (by decide) (by decide)),
   (broadcast_drops_failed ⟨[1, 2, 3]⟩ 2 (by decide)).2.2.1⟩

/-- C5: search over an empty store and over an unreadable store (the query
raising) both yield empty text; the embedding is a total function, so no
exception escapes the search boundary. -/
theorem search_empty_or_unreadable (q : String) :
    search_knowledge_base none q = ""
    ∧ search_knowledge_base (some []) q = ""
    ∧ backendContext none q = ""
    ∧ backendContext (some []) q = "" := by
  refine ⟨rfl, ?_, rfl, ?_⟩ <;>
    simp [search_knowledge_base, backendContext, searchText, searchRanked, scoredDocs,
      String.intercalate]

/-- C2 (amended): the language-model boundary never raises — every model
fault degrades to text. In the WebSocket pipeline every exception, a timeout
included, yields the one fixed apology string; in the LINE handler every
exception yields an error string embedding the exception text. No fixed
"timed out" string distinct from the apology exists. -/
theorem llm_boundary_fallback (t m : String) (tm : Bool) :
    backendGenerate (.ok t) = t
    ∧ backendGenerate (.exn tm m) = apologyString
    ∧ handle_message_response (.ok t) = t
    ∧ handle_message_response (.exn tm m) = "申し訳ありません。エラーが発生しました: " ++ m :=
  ⟨rfl, rfl, rfl, rfl⟩

/-- C2 counterexample: on a timeout the backend boundary returns the apology
string itself — the very same string as for a failed model invocation — so no
"timed out" string distinct from the apology is ever returned. -/
theorem llm_timeout_not_distinct_cex :
    backendGenerate (.exn true "Read timed out.") = apologyString
    ∧ backendGenerate (.exn true "Read timed out.")
        = backendGenerate (.exn false "Ollama call failed with status code 500") :=
  ⟨rfl, rfl⟩

/-- C3 (amended): a pipeline run whose model invocation exceeds its time
bound yields a response whose content is exactly the fixed apology string
(the single fallback for every model fault), and the turn is still appended
to the store with that string as the answer half of
`質問: <input>\n回答: <answer>`. -/
theorem pipeline_timeout_degraded (env : PipelineEnv) (msg : String)
    (htmo : env.llm (pipelinePrompt env) = LlmOutcome.exn true msg)
    (hadd : env.addOk = true) :
    (process_user_message env).2.content = apologyString
    ∧ TraceItem.persist (qaDoc (userInput env) apologyString)
        ∈ (process_user_message env).1 := by
  constructor
  · simp [process_user_message, htmo, backendGenerate]
  · simp [process_user_message, htmo, hadd, backendGenerate]

/-- Concrete run whose model call times out. -/
def envTimeout : PipelineEnv :=
  ⟨[("content", "こんにちは")], none, fun _ => LlmOutcome.exn true "Read timed out.", true⟩

/-- Concrete run whose model call fails with a non-timeout error. -/
def envModelErr : PipelineEnv :=
  ⟨[("content", "こんにちは")], none,
    fun _ => LlmOutcome.exn false "Ollama call failed with status code 500", true⟩

/-- C3 witness: the timed-out run at a concrete environment. -/
theorem pipeline_timeout_degraded_witness :
    (process_user_message envTimeout).2.content = apologyString
    ∧ TraceItem.persist (qaDoc (userInput envTimeout) apologyString)
        ∈ (process_user_message envTimeout).1 :=
  pipeline_timeout_degraded envTimeout "Read timed out." rfl rfl

/-- C3 counterexample: at a concrete timed-out run, the response content is
the apology string — identical to the content of a run whose model call failed
for a non-timeout reason — not a fixed timeout string distinct from it. -/
theorem pipeline_timeout_cex :
    (process_user_message envTimeout).2.content = "申し訳ありません。エラーが発生しました。"
    ∧ (process_user_message envTimeout).2.content
        = (process_user_message envModelErr).2.content :=
  ⟨rfl, rfl⟩

/-- C7: every pipeline run emits its progress events exactly in the order
analyzing, searching, generating — none repeated, none out of order — and the
single final response is produced only after all of them, as the last
observable action. -/
theorem pipeline_event_order (env : PipelineEnv) :
    (process_user_message env).1.filterMap stepOf = ["analyzing", "searching", "generating"]
    ∧ (process_user_message env).1.getLast?
        = some (TraceItem.respond ((process_user_message env).2.content))
    ∧ (process_user_message env).1.countP isRespond = 1 := by
  cases h : env.addOk <;>
    simp [process_user_message, h, stepOf, isRespond]

/-- C8: an input mapping without a "content" key is not rejected: the run
proceeds exactly as if the user text were empty and still produces the normal
structured response with role "ai" and type "response". -/
theorem missing_content_defaults (env : PipelineEnv)
    (h : env.message.lookup "content" = none) :
    process_user_message env
      = process_user_message ⟨[("content", "")], env.store, env.llm, env.addOk⟩
    ∧ (process_user_message env).2.type = "response"
    ∧ (process_user_message env).2.role = "ai" := by
  have hu : userInput env = "" := by simp [userInput, h]
  have hu' : userInput ⟨[("content", "")], env.store, env.llm, env.addOk⟩ = "" := by
    simp [userInput, List.lookup]
  refine ⟨?_, rfl, rfl⟩
  simp [process_user_message, pipelinePrompt, pipelineContext, hu, hu']

/-- C8 witness: a concrete mapping with no "content" key. -/
theorem missing_content_defaults_witness :
    process_user_message ⟨[("type", "message")], none, fun _ => LlmOutcome.ok "了解です", true⟩
      = process_user_message ⟨[("content", "")], none, fun _ => LlmOutcome.ok "了解です", true⟩
    ∧ (process_user_message
        ⟨[("type", "message")], none, fun _ => LlmOutcome.ok "了解です", true⟩).2.type
        = "response" :=
  ⟨(missing_content_defaults ⟨[("type", "message")], none, fun _ => LlmOutcome.ok "了解です", true⟩
      (by decide)).1,
   (missing_content_defaults ⟨[("type", "message")], none, fun _ => LlmOutcome.ok "了解です", true⟩
      (by decide)).2.1⟩

/-- C9: a backup payload written by `save_backup` and read back by
`load_backup` (same manager, same filename) is returned intact — in
particular the document and metadata lists are identical to the ones
written. -/
theorem backup_roundtrip (mgr : GitHubManager) (fs : List (String × BackupData))
    (data : BackupData) (filename : String) :
    (mgr.save_backup fs true data filename).1 = true
    ∧ mgr.load_backup (mgr.save_backup fs true data filename).2 filename = some data
    ∧ ∃ loaded, mgr.load_backup (mgr.save_backup fs true data filename).2 filename
          = some loaded
        ∧ loaded.documents = data.documents
        ∧ loaded.metadatas = data.metadatas := by
  refine ⟨rfl, ?_, data, ?_, rfl, rfl⟩ <;>
    simp [GitHubManager.save_backup, GitHubManager.load_backup, List.lookup]

/-- C1: the knowledge-store search returns only stored documents containing
at least one whitespace-delimited query token as a substring, in an order
where a document matching more tokens never ranks below one matching fewer,
with at most `limit` documents, whose text the search joins by newlines. -/
theorem search_token_ranking (docs : List String) (q : String) (limit : Nat) :
    (searchRanked docs q limit).length ≤ limit
    ∧ (∀ d ∈ searchRanked docs q limit,
        d ∈ docs ∧ ∃ t ∈ queryTokens q, occursIn t d = true)
    ∧ List.Sorted (fun a b => tokenScore (queryTokens q) b ≤ tokenScore (queryTokens q) a)
        (searchRanked docs q limit)
    ∧ searchText docs q limit = String.intercalate "\n" (searchRanked docs q limit) := by
  refine ⟨?_, ?_, ?_, rfl⟩
  · rw [searchRanked, List.length_map]
    exact List.length_take_le _ _
  · intro d hd
    rw [searchRanked] at hd
    rcases List.mem_map.mp hd with ⟨p, hp, rfl⟩
    have hps := scoredDocs_mem (searchRanked_take_mem hp)
    refine ⟨hps.1, ?_⟩
    have hpos : 0 < tokenScore (queryTokens q) p.2 := hps.2.1 ▸ hps.2.2
    rw [tokenScore] at hpos
    exact List.countP_pos_iff.mp hpos
  · have hsorted : ((List.insertionSort rankRel
        (scoredDocs (queryTokens q) docs)).take limit).Pairwise rankRel :=
      (List.sorted_insertionSort rankRel _).sublist (List.take_sublist _ _)
    rw [searchRanked]
    refine (List.pairwise_map).mpr (hsorted.imp_of_mem ?_)
    intro a b ha hb hr
    have hA := scoredDocs_mem (searchRanked_take_mem ha)
    have hB := scoredDocs_mem (searchRanked_take_mem hb)
    rw [← hA.2.1, ← hB.2.1]
    exact hr

/-- C1 witness: a two-document store and a two-token query, with the
token-occurrence obligation discharged at the returned document. -/
theorem search_token_ranking_witness :
    (searchRanked ["メッシュ素材の椅子", "豆腐の値段"] "椅子 ほしい" 3).length ≤ 3
    ∧ ("メッシュ素材の椅子" ∈ (["メッシュ素材の椅子", "豆腐の値段"] : List String)
        ∧ ∃ t ∈ queryTokens "椅子 ほしい", occursIn t "メッシュ素材の椅子" = true) :=
  ⟨(search_token_ranking ["メッシュ素材の椅子", "豆腐の値段"] "椅子 ほしい" 3).1,
   (search_token_ranking ["メッシュ素材の椅子", "豆腐の値段"] "椅子 ほしい" 3).2.1
     "メッシュ素材の椅子" (by decide)⟩

/-- C10: for every email body the extractor returns, without raising, a
record with exactly the keys product, price, date and source; product and
price default to 不明 when their patterns find no match, the date defaults to
the current date when its pattern finds no match, and source is always
amazon_email. -/
theorem extract_amazon_order_shape (email_body today : String) :
    (extract_amazon_order email_body today).map Prod.fst
        = ["product", "price", "date", "source"]
    ∧ (extract_amazon_order email_body today).lookup "source" = some "amazon_email"
    ∧ (findProduct (stripTags email_body) = none →
        (extract_amazon_order email_body today).lookup "product" = some "不明")
    ∧ (findPrice (stripTags email_body) = none →
        (extract_amazon_order email_body today).lookup "price" = some "不明")
    ∧ (findDate (stripTags email_body) = none →
        (extract_amazon_order email_body today).lookup "date" = some today) := by
  refine ⟨?_, ?_, ?_, ?_, ?_⟩
  · rcases hp : findProduct (stripTags email_body) with _ | g <;>
      simp [extract_amazon_order, hp]
  · rcases hp : findProduct (stripTags email_body) with _ | g <;>
      simp [extract_amazon_order, hp, List.lookup]
  · intro hp
    simp [extract_amazon_order, hp, List.lookup]
  · intro hpr
    rcases hp : findProduct (stripTags email_body) with _ | g <;>
      simp [extract_amazon_order, hp, hpr, List.lookup]
  · intro hd
    rcases hp : findProduct (stripTags email_body) with _ | g <;>
      simp [extract_amazon_order, hp, hd, List.lookup]

/-- C10 witness: a body matching none of the three patterns. -/
theorem extract_amazon_order_shape_witness :
    (extract_amazon_order "こんにちは" "2026年10月12日").lookup "product" = some "不明"
    ∧ (extract_amazon_order "こんにちは" "2026年10月12日").lookup "price" = some "不明"
    ∧ (extract_amazon_order "こんにちは" "2026年10月12日").lookup "date"
        = some "2026年10月12日"
    ∧ (extract_amazon_order "こんにちは" "2026年10月12日").map Prod.fst
        = ["product", "price", "date", "source"] :=
  ⟨(extract_amazon_order_shape "こんにちは" "2026年10月12日").2.2.1 (by decide),
   (extract_amazon_order_shape "こんにちは" "2026年10月12日").2.2.2.1 (by decide),
   (extract_amazon_order_shape "こんにちは" "2026年10月12日").2.2.2.2 (by decide),
   (extract_amazon_order_shape "こんにちは" "2026年10月12日").1⟩
